import Mathlib

/-!
Verification of the StokerCloud v16 client (src/stokercloud_v16/client.py)
against its natural-language specification.

The embedding models Python/JSON values as the inductive type PyVal, Python
dictionaries as association lists in which a later binding shadows an earlier
one (lookup scans from the right, matching the overwrite semantics of a
Python dict), and the HTTP transport as an oracle assigning an outcome to the
n-th request on each endpoint.  Places where the Python code can raise are
modelled with Except; the translation keeps the try/except structure of the
source, so an exception swallowed by the code is swallowed here and an
exception that would propagate surfaces as an Except.error value.
-/

/-- Python/JSON values as they occur in this client: None, booleans, numbers
(modelled as rationals), strings, lists and dicts.  Dict keys are arbitrary
values, as in Python; keys decoded from JSON are always strings. -/
inductive PyVal where
  | none
  | bool (b : Bool)
  | num (q : ℚ)
  | str (s : String)
  | list (xs : List PyVal)
  | dict (kvs : List (PyVal × PyVal))

/-- Does a dict key equal the literal string s?  Every key lookup in the
client uses a string literal, so only string keys can match. -/
def keyMatches (k : PyVal) (s : String) : Bool :=
  match k with
  | PyVal.str t => t == s
  | _ => false

/-- d.get(k, default) on an association-list dict: the value of the last
binding of key k, or the default. -/
def pyGetD (kvs : List (PyVal × PyVal)) (k : String) (d : PyVal) : PyVal :=
  match kvs.reverse.find? (fun p => keyMatches p.1 k) with
  | some p => p.2
  | Option.none => d

/-- Python membership test k in d. -/
def hasKey (kvs : List (PyVal × PyVal)) (k : String) : Bool :=
  kvs.any (fun p => keyMatches p.1 k)

/-- Python truthiness of a value, as used by if not self.token. -/
def pyTruthy : PyVal → Bool
  | PyVal.none => false
  | PyVal.bool b => b
  | PyVal.num q => q != 0
  | PyVal.str s => !s.data.isEmpty
  | PyVal.list xs => !xs.isEmpty
  | PyVal.dict kvs => !kvs.isEmpty

/-- Python str() on the values that can reach _safe_float.  Containers render
with their opening bracket; their exact interior is irrelevant here because a
bracketed string can never parse as a float, which is the only use made of
this function.  Numbers never reach it: safe_float short-circuits them (in
Python, float(str(x)) round-trips for every finite float x). -/
def pyStr : PyVal → String
  | PyVal.none => "None"
  | PyVal.bool true => "True"
  | PyVal.bool false => "False"
  | PyVal.num _ => ""
  | PyVal.str s => s
  | PyVal.list _ => "[...]"
  | PyVal.dict _ => "\x7b...\x7d"

/-- Numeric value of a list of decimal digit characters, most significant
first. -/
def natOfDigits (cs : List Char) : ℕ :=
  cs.foldl (fun n c => 10 * n + (c.toNat - 48)) 0

/-- Strip leading and trailing whitespace, as Python float() does. -/
def stripWS (cs : List Char) : List Char :=
  ((cs.dropWhile Char.isWhitespace).reverse.dropWhile Char.isWhitespace).reverse

/-- Python float(s) on plain decimal strings: optional surrounding
whitespace, an optional sign, digits with at most one decimal point, and at
least one digit.  (Exponents, inf/nan and underscore separators are not
modelled; no input considered in this development uses them.)  Returns none
where Python raises ValueError. -/
def pyFloatParse (s : String) : Option ℚ :=
  let cs := stripWS s.data
  let sr : ℚ × List Char :=
    match cs with
    | '-' :: r => (-1, r)
    | '+' :: r => (1, r)
    | r => (1, r)
  let intPart := sr.2.takeWhile (fun c => c ≠ '.')
  match sr.2.dropWhile (fun c => c ≠ '.') with
  | [] =>
      if intPart.all Char.isDigit ∧ intPart ≠ [] then
        some (sr.1 * natOfDigits intPart)
      else Option.none
  | _ :: frac =>
      if intPart.all Char.isDigit ∧ frac.all Char.isDigit ∧ (intPart ≠ [] ∨ frac ≠ []) then
        some (sr.1 * ((natOfDigits intPart : ℚ) + (natOfDigits frac : ℚ) / (10 ^ frac.length)))
      else Option.none

/-- str(val).replace(',', '.'): the pattern is a single character, so the
substring replacement is a character-wise map. -/
def commaToDot (s : String) : String :=
  String.mk (s.data.map (fun c => if c = ',' then '.' else c))

/-- _safe_float (client.py lines 208-212): float(str(val).replace(',', '.')),
returning 0.0 when the conversion raises ValueError/TypeError.  A numeric
value is returned unchanged (float(str(x)) round-trips); everything else is
stringified and parsed. -/
def safe_float (val : PyVal) : ℚ :=
  match val with
  | PyVal.num q => q
  | v =>
      match pyFloatParse (commaToDot (pyStr v)) with
      | some q => q
      | Option.none => 0

/-- flatten_list (client.py lines 188-192): a list of records becomes a dict
mapping each record's id to its value, keeping only dict-shaped entries that
carry an id key; any non-list input becomes the empty dict. -/
def flatten_list (source : PyVal) : PyVal :=
  match source with
  | PyVal.list items =>
      PyVal.dict (items.foldl (fun acc item =>
        match item with
        | PyVal.dict kvs =>
            if hasKey kvs "id" then
              acc ++ [(pyGetD kvs "id" PyVal.none, pyGetD kvs "value" PyVal.none)]
            else acc
        | _ => acc) [])
  | _ => PyVal.dict []

/-- _parse_response (client.py lines 182-206).  front.get("boilertemp") and
misc.get("state") are attribute accesses on whatever data.get returned: when
frontdata or miscdata is present but not a dict they raise AttributeError
(modelled as Except.error), which the caller's except block absorbs.  The
isinstance(front, dict) guard on the "front" attribute is consequently dead:
it is only reached when front already is a dict. -/
def parse_response (kvs : List (PyVal × PyVal)) : Except Unit PyVal :=
  let front := pyGetD kvs "frontdata" (PyVal.dict [])
  let misc := pyGetD kvs "miscdata" (PyVal.dict [])
  match front, misc with
  | PyVal.dict fkvs, PyVal.dict mkvs =>
      Except.ok (PyVal.dict [
        (PyVal.str "boiler_temp", PyVal.num (safe_float (pyGetD fkvs "boilertemp" PyVal.none))),
        (PyVal.str "state",
          match pyGetD mkvs "state" PyVal.none with
          | PyVal.dict skvs => pyGetD skvs "value" PyVal.none
          | _ => PyVal.str "Unknown"),
        (PyVal.str "attributes", PyVal.dict [
          (PyVal.str "front", PyVal.dict fkvs),
          (PyVal.str "boiler", flatten_list (pyGetD kvs "boilerdata" PyVal.none)),
          (PyVal.str "dhw", flatten_list (pyGetD kvs "dhwdata" PyVal.none)),
          (PyVal.str "hopper", flatten_list (pyGetD kvs "hopperdata" PyVal.none)),
          (PyVal.str "regulation", flatten_list (pyGetD kvs "regulationdata" PyVal.none)),
          (PyVal.str "ignition", flatten_list (pyGetD kvs "ignitiondata" PyVal.none))])])
  | _, _ => Except.error ()

/-- One request made over the wire, with the parameters relevant to the
specification.  The client only ever contacts its four fixed endpoints:
login.php, controllerdata2.php, getconsumption.php and updatevalue.php.
There is no per-menu-section endpoint in the code. -/
inductive ReqEvent where
  | loginReq
  | dataReq
  | consReq
  | updReq (menu : String) (name : String) (value : ℤ)
  deriving DecidableEq

/-- Outcome of one request against a JSON endpoint: a raised transport error
(timeout / connection failure), or a response with an HTTP status whose
.json() call either yields a value or raises (non-JSON body). -/
inductive Resp where
  | err
  | ok (status : ℕ) (body : Except Unit PyVal)

/-- Outcome of one request against the text endpoint updatevalue.php: a
raised transport error, or a status plus the .text() body. -/
inductive UpdResp where
  | err
  | ok (status : ℕ) (text : String)

/-- The remote service: the outcome of the n-th request on each endpoint. -/
structure Oracle where
  login : ℕ → Resp
  data : ℕ → Resp
  cons : ℕ → Resp
  upd : ℕ → UpdResp

/-- Mutable client state: the stored token (None at construction) plus, for
the theorems, the number of requests already made per endpoint and the trace
of issued requests. -/
structure ClientState where
  token : PyVal
  nLogin : ℕ
  nData : ℕ
  nCons : ℕ
  nUpd : ℕ
  trace : List ReqEvent

/-- The state of a freshly constructed client. -/
def ClientState.init : ClientState :=
  { token := PyVal.none, nLogin := 0, nData := 0, nCons := 0, nUpd := 0, trace := [] }

/-- _refresh_token (client.py lines 25-51).  The login status code is never
inspected.  A non-JSON body, a list body, or a raised error leaves the token
untouched (all exceptions are swallowed); a body on which .get would raise
(a scalar) is caught by the outer except and also leaves the token untouched;
a dict body stores its token field, which data.get reports as None when the
field is missing. -/
def refresh_token (o : Oracle) (s : ClientState) : ClientState :=
  let s1 : ClientState :=
    { s with nLogin := s.nLogin + 1, trace := s.trace ++ [ReqEvent.loginReq] }
  match o.login s.nLogin with
  | Resp.err => s1
  | Resp.ok _ (Except.error _) => s1
  | Resp.ok _ (Except.ok (PyVal.dict kvs)) =>
      { s1 with token := pyGetD kvs "token" PyVal.none }
  | Resp.ok _ (Except.ok _) => s1

/-- Does a login response cause _refresh_token to store a truthy token?
Only a dict body with a truthy token field does. -/
def loginGivesToken : Resp → Bool
  | Resp.ok _ (Except.ok (PyVal.dict kvs)) => pyTruthy (pyGetD kvs "token" PyVal.none)
  | _ => false

/-- fetch_data with retry=False (client.py lines 53-108 at retry=False).
A 401 status falls through to body parsing (the retry guard fails); every
failure path returns the empty dict.  The exception branch at line 98 catches
both the transport error and an AttributeError escaping _parse_response. -/
def fetch_data_noretry (o : Oracle) (s : ClientState) : PyVal × ClientState :=
  let s1 := if pyTruthy s.token then s else refresh_token o s
  if pyTruthy s1.token = false then (PyVal.dict [], s1)
  else
    let s2 : ClientState :=
      { s1 with nData := s1.nData + 1, trace := s1.trace ++ [ReqEvent.dataReq] }
    match o.data s1.nData with
    | Resp.err => (PyVal.dict [], s2)
    | Resp.ok _ body =>
        match body with
        | Except.error _ => (PyVal.dict [], s2)
        | Except.ok raw =>
            match raw with
            | PyVal.dict kvs =>
                if hasKey kvs "frontdata" then
                  match parse_response kvs with
                  | Except.ok parsed => (parsed, s2)
                  | Except.error _ => (PyVal.dict [], s2)
                else (PyVal.dict [], s2)
            | _ => (PyVal.dict [], s2)

/-- fetch_data with the default retry=True (client.py lines 53-108).  The
four retry sites — transport error, 401, AttributeError escaping
_parse_response, wrong body shape, missing frontdata — clear the token and
re-enter the function with retry=False; the 401, error and parse-failure
sites additionally call _refresh_token first. -/
def fetch_data (o : Oracle) (s : ClientState) : PyVal × ClientState :=
  let s1 := if pyTruthy s.token then s else refresh_token o s
  if pyTruthy s1.token = false then (PyVal.dict [], s1)
  else
    let s2 : ClientState :=
      { s1 with nData := s1.nData + 1, trace := s1.trace ++ [ReqEvent.dataReq] }
    match o.data s1.nData with
    | Resp.err => fetch_data_noretry o (refresh_token o { s2 with token := PyVal.none })
    | Resp.ok status body =>
        if status = 401 then
          fetch_data_noretry o (refresh_token o { s2 with token := PyVal.none })
        else
          match body with
          | Except.error _ => (PyVal.dict [], s2)
          | Except.ok raw =>
              match raw with
              | PyVal.dict kvs =>
                  if hasKey kvs "frontdata" then
                    match parse_response kvs with
                    | Except.ok parsed => (parsed, s2)
                    | Except.error _ =>
                        fetch_data_noretry o (refresh_token o { s2 with token := PyVal.none })
                  else fetch_data_noretry o { s2 with token := PyVal.none }
              | _ => fetch_data_noretry o { s2 with token := PyVal.none }

/-- get_consumption (client.py lines 110-135).  The query string is parsed
only into outgoing request parameters and cannot influence the result or the
client state (a malformed string degrades to an empty parameter dict before
the token is added), so it is not modelled further.  Any outcome other than
a 200 response whose JSON body is a list yields the empty list. -/
def get_consumption (o : Oracle) (_query_string : String) (s : ClientState) : PyVal × ClientState :=
  let s1 := if pyTruthy s.token then s else refresh_token o s
  if pyTruthy s1.token = false then (PyVal.list [], s1)
  else
    let s2 : ClientState :=
      { s1 with nCons := s1.nCons + 1, trace := s1.trace ++ [ReqEvent.consReq] }
    match o.cons s1.nCons with
    | Resp.err => (PyVal.list [], s2)
    | Resp.ok status body =>
        if status = 200 then
          match body with
          | Except.error _ => (PyVal.list [], s2)
          | Except.ok (PyVal.list xs) => (PyVal.list xs, s2)
          | Except.ok _ => (PyVal.list [], s2)
        else (PyVal.list [], s2)

/-- The static write-target table of set_param (client.py lines 146-152),
as (logical key, menu, name) triples. -/
def MAPPING : List (String × String × String) := [
  ("dhwwanted", "hot_water.temp", "hot_water.temp"),
  ("-wantedboilertemp", "boiler.temp", "boiler.temp"),
  ("regulation.max_power", "regulation", "regulation.max_power"),
  ("regulation.min_power", "regulation", "regulation.min_power"),
  ("ignition.pellets", "igniter", "ignition.pellets")]

/-- Resolution of a logical key to the (menu, name) write target (client.py
lines 154-161).  read_key.split('.')[0] is the prefix of the key before its
first '.', so the fallback is that prefix when the key contains a dot and the
key itself otherwise; name is always the full key. -/
def resolve_key (read_key : String) : String × String :=
  match MAPPING.find? (fun p => p.1 == read_key) with
  | some p => (p.2.1, p.2.2)
  | Option.none =>
      (if read_key.data.contains '.' then
         String.mk (read_key.data.takeWhile (fun c => c ≠ '.'))
       else read_key,
       read_key)

/-- int(round(float(v))) as used in set_param: Python round() rounds halves
to the nearest even integer, and int() of the already-integral result is the
integer itself. -/
def pyRound (q : ℚ) : ℤ :=
  let f := Rat.floor q
  if q - f < 1 / 2 then f
  else if (1 : ℚ) / 2 < q - f then f + 1
  else if f % 2 = 0 then f else f + 1

/-- Is there an occurrence of O immediately followed by K? -/
def okInChars : List Char → Bool
  | 'O' :: 'K' :: _ => true
  | _ :: rest => okInChars rest
  | [] => false

/-- Python "OK" in s. -/
def containsOK (s : String) : Bool := okInChars s.data

/-- Python s.upper(); the bodies compared against "OK" are ASCII. -/
def pyUpper (s : String) : String := String.mk (s.data.map Char.toUpper)

/-- Success of one updatevalue.php outcome, exactly as set_param judges it:
HTTP 200 and an "OK" substring of the upper-cased body; a transport error is
a failure. -/
def updSuccess : UpdResp → Bool
  | UpdResp.err => false
  | UpdResp.ok status text => decide (status = 200) && containsOK (pyUpper text)

/-- set_param (client.py lines 137-180): ensure a token (one login attempt,
else return False), resolve the key, round the value and issue the write;
True exactly for a 200 status whose body contains "OK" after upper-casing,
False for everything else including a raised transport error. -/
def set_param (o : Oracle) (read_key : String) (value : ℚ) (s : ClientState) : Bool × ClientState :=
  let s1 := if pyTruthy s.token then s else refresh_token o s
  if pyTruthy s1.token = false then (false, s1)
  else
    let mn := resolve_key read_key
    let s2 : ClientState :=
      { s1 with
          nUpd := s1.nUpd + 1,
          trace := s1.trace ++ [ReqEvent.updReq mn.1 mn.2 (pyRound value)] }
    match o.upd s1.nUpd with
    | UpdResp.err => (false, s2)
    | UpdResp.ok status text => (decide (status = 200) && containsOK (pyUpper text), s2)

/-- A Python float argument: a finite value (a rational) or one of the
non-finite values nan, inf, -inf.  Python's float type contains all of
these, so a caller can pass any of them to set_param. -/
inductive PyFloat where
  | finite (q : ℚ)
  | nan
  | inf
  | ninf

/-- int(round(float(v))) on a Python float: the integer for a finite value;
for nan it raises ValueError and for ±inf OverflowError (modelled as
Except.error).  In set_param this expression (client.py line 167) sits
OUTSIDE the try block that begins at line 173. -/
def pyRoundFloat : PyFloat → Except Unit ℤ
  | PyFloat.finite q => Except.ok (pyRound q)
  | _ => Except.error ()

/-- set_param (client.py lines 137-180) as called with an arbitrary Python
float.  Identical to set_param on finite values; but because
int(round(float(value))) at line 167 is evaluated before the try block at
line 173, a non-finite value makes the ValueError/OverflowError escape to
the caller (Except.error) instead of being caught — no request is issued in
that case.  The token guard at lines 139-141 runs first, so a call that
fails to obtain a token returns False before the conversion is reached. -/
def set_param_float (o : Oracle) (read_key : String) (value : PyFloat) (s : ClientState) :
    Except Unit (Bool × ClientState) :=
  let s1 := if pyTruthy s.token then s else refresh_token o s
  if pyTruthy s1.token = false then Except.ok (false, s1)
  else
    let mn := resolve_key read_key
    match pyRoundFloat value with
    | Except.error e => Except.error e
    | Except.ok v =>
        let s2 : ClientState :=
          { s1 with
              nUpd := s1.nUpd + 1,
              trace := s1.trace ++ [ReqEvent.updReq mn.1 mn.2 v] }
        match o.upd s1.nUpd with
        | UpdResp.err => Except.ok (false, s2)
        | UpdResp.ok status text =>
            Except.ok (decide (status = 200) && containsOK (pyUpper text), s2)

/-- The miscdata.state value of a raw primary payload, as _parse_response
reads it: data.get("miscdata") with an empty-dict default, then .get("state")
(None when the key is missing).  Only meaningful when miscdata is a dict;
for a non-dict miscdata _parse_response raises before looking at state. -/
def miscState (kvs : List (PyVal × PyVal)) : PyVal :=
  match pyGetD kvs "miscdata" (PyVal.dict []) with
  | PyVal.dict mkvs => pyGetD mkvs "state" PyVal.none
  | _ => PyVal.none

/-- Shape of every non-empty snapshot produced from the raw payload kvs:
exactly the keys boiler_temp (a number), state and attributes, in this
order; attributes holds exactly the six fixed section names front, boiler,
dhw, hopper, regulation, ignition, each bound to a dict; and the state is
the string "Unknown" whenever the payload's miscdata.state is not
dict-shaped. -/
def SnapshotShape (kvs : List (PyVal × PyVal)) (r : PyVal) : Prop :=
  ∃ (bt : ℚ) (st : PyVal) (fl bl dl hl rl il : List (PyVal × PyVal)),
    r = PyVal.dict [
      (PyVal.str "boiler_temp", PyVal.num bt),
      (PyVal.str "state", st),
      (PyVal.str "attributes", PyVal.dict [
        (PyVal.str "front", PyVal.dict fl),
        (PyVal.str "boiler", PyVal.dict bl),
        (PyVal.str "dhw", PyVal.dict dl),
        (PyVal.str "hopper", PyVal.dict hl),
        (PyVal.str "regulation", PyVal.dict rl),
        (PyVal.str "ignition", PyVal.dict il)])] ∧
    ((∀ skvs, miscState kvs ≠ PyVal.dict skvs) → st = PyVal.str "Unknown")

/-- A client state that already holds a session token. -/
def stTok : ClientState := { ClientState.init with token := PyVal.str "abc" }

/-- A service on which every request raises a transport error; in particular
the login endpoint never yields a token. -/
def oAllErr : Oracle :=
  { login := fun _ => Resp.err, data := fun _ => Resp.err,
    cons := fun _ => Resp.err, upd := fun _ => UpdResp.err }

/-- The primary payload of the end-to-end scenario: a list-shaped frontdata
carrying boilertemp "62,3" and a miscdata.state of "Heating". -/
def c3kvs : List (PyVal × PyVal) := [
  (PyVal.str "frontdata", PyVal.list [PyVal.dict [
    (PyVal.str "id", PyVal.str "boilertemp"),
    (PyVal.str "value", PyVal.str "62,3")]]),
  (PyVal.str "miscdata", PyVal.dict [
    (PyVal.str "state", PyVal.dict [(PyVal.str "value", PyVal.str "Heating")])])]

/-- The end-to-end scenario service: login always succeeds with token "abc",
the primary fetch always returns the c3kvs payload. -/
def oC3 : Oracle :=
  { login := fun _ => Resp.ok 200 (Except.ok (PyVal.dict [(PyVal.str "token", PyVal.str "abc")])),
    data := fun _ => Resp.ok 200 (Except.ok (PyVal.dict c3kvs)),
    cons := fun _ => Resp.err,
    upd := fun _ => UpdResp.err }

/-- A primary payload with a dict frontdata lacking boilertemp, a state of
"Heating", a malformed (scalar) boilerdata, a well-formed dhwdata, an empty
hopperdata, and no regulationdata/ignitiondata at all. -/
def c7kvs : List (PyVal × PyVal) := [
  (PyVal.str "frontdata", PyVal.dict []),
  (PyVal.str "miscdata", PyVal.dict [
    (PyVal.str "state", PyVal.dict [(PyVal.str "value", PyVal.str "Heating")])]),
  (PyVal.str "boilerdata", PyVal.num 7),
  (PyVal.str "dhwdata", PyVal.list [PyVal.dict [
    (PyVal.str "id", PyVal.str "dhwtemp"),
    (PyVal.str "value", PyVal.str "50")]]),
  (PyVal.str "hopperdata", PyVal.list [])]

/-- A service whose primary fetch succeeds with the c7kvs payload. -/
def oC7 : Oracle :=
  { login := fun _ => Resp.err,
    data := fun _ => Resp.ok 200 (Except.ok (PyVal.dict c7kvs)),
    cons := fun _ => Resp.err,
    upd := fun _ => UpdResp.err }

/-- A write service answering 200 with the body '\x7b"status":0\x7d': the
status-success marker of the specification, without any "OK" text. -/
def oC6 : Oracle :=
  { login := fun _ => Resp.err, data := fun _ => Resp.err, cons := fun _ => Resp.err,
    upd := fun _ => UpdResp.ok 200 "\x7b\"status\":0\x7d" }

/-- A write service answering 200 with the body "ok". -/
def oW6 : Oracle :=
  { login := fun _ => Resp.err, data := fun _ => Resp.err, cons := fun _ => Resp.err,
    upd := fun _ => UpdResp.ok 200 "ok" }

/-- C1 counterexample: the value codec returns the number 0 for the sentinel
"N/A" — there is no absent marker in its result type and the claim's "never
the number 0" fails. -/
theorem c1_counterexample : safe_float (PyVal.str "N/A") = 0 := rfl

/-- C1 as amended: for every raw input value that is null, the empty string,
the literal string "N/A", or the literal string "None", _safe_float returns
the number 0.0 — never an absent marker and never a parse error (the
conversion is total; the ValueError is caught and mapped to 0.0). -/
theorem c1_amended_thm :
    safe_float PyVal.none = 0 ∧ safe_float (PyVal.str "") = 0 ∧
    safe_float (PyVal.str "N/A") = 0 ∧ safe_float (PyVal.str "None") = 0 :=
  ⟨rfl, rfl, rfl, rfl⟩

/-- C3: on the end-to-end scenario payload — frontdata a list of {id, value}
records, miscdata.state "Heating" — _parse_response raises (front.get on a
list), fetch_data absorbs the error, resets the token, logs in again, fails
the same way on the retry, and returns the empty snapshot with two login
attempts made; the claimed snapshot (boiler temperature 62.3, state
"Heating") is never produced. -/
theorem c3_eval :
    parse_response c3kvs = Except.error () ∧
    (fetch_data oC3 ClientState.init).1 = PyVal.dict [] ∧
    (fetch_data oC3 ClientState.init).2.nLogin = 2 :=
  ⟨rfl, rfl, rfl⟩

/-- C4 counterexample: the logical key "dhwwanted" does not resolve to the
vendor target (menu "hot_water", name "hot_water.temp") — the table maps it
to menu "hot_water.temp". -/
theorem c4_counterexample : resolve_key "dhwwanted" ≠ ("hot_water", "hot_water.temp") := by
  decide

/-- C4 as amended: "dhwwanted" resolves to (menu "hot_water.temp", name
"hot_water.temp"); an unmapped key with a '.' resolves via fallback to the
segment before the first '.' as menu and the full key as name (e.g.
"fan.speed" to ("fan", "fan.speed")); an unmapped key without a separator
resolves to (key, key) (e.g. "igniter"); and for every unmapped key the name
is the full key. -/
theorem c4_amended_thm :
    resolve_key "dhwwanted" = ("hot_water.temp", "hot_water.temp") ∧
    resolve_key "fan.speed" = ("fan", "fan.speed") ∧
    resolve_key "igniter" = ("igniter", "igniter") ∧
    (∀ k, MAPPING.find? (fun p => p.1 == k) = Option.none → (resolve_key k).2 = k) :=
  ⟨rfl, rfl, rfl, fun k h => by simp [resolve_key, h]⟩

/-- C4 witness: the general fallback clause of c4_amended_thm applied at the
unmapped key "fan2". -/
theorem c4_witness : (resolve_key "fan2").2 = "fan2" :=
  c4_amended_thm.2.2.2 "fan2" (by decide)

/-- C5 counterexample: the normalizer does not pass a flat mapping through —
flatten_list maps every dict input to the empty dict, so {"a": "1"} does not
stay {"a": "1"}. -/
theorem c5_counterexample :
    flatten_list (PyVal.dict [(PyVal.str "a", PyVal.str "1")]) ≠
      PyVal.dict [(PyVal.str "a", PyVal.str "1")] := by
  simp [flatten_list]

/-- C5 as amended: given a sequence, flatten_list keeps only object-shaped
entries carrying an id field and maps id to value; given anything else — a
flat mapping (with or without "N/A" values), null, or a scalar — it produces
the empty mapping, never an error; no "N/A" substitution is performed. -/
theorem c5_amended_thm :
    flatten_list (PyVal.list [
        PyVal.dict [(PyVal.str "id", PyVal.str "a"), (PyVal.str "value", PyVal.str "1")],
        PyVal.dict [(PyVal.str "novalue", PyVal.str "x")]]) =
      PyVal.dict [(PyVal.str "a", PyVal.str "1")] ∧
    flatten_list (PyVal.dict [(PyVal.str "a", PyVal.str "1")]) = PyVal.dict [] ∧
    flatten_list (PyVal.dict [(PyVal.str "a", PyVal.str "N/A")]) = PyVal.dict [] ∧
    flatten_list PyVal.none = PyVal.dict [] ∧
    flatten_list (PyVal.num 5) = PyVal.dict [] :=
  ⟨rfl, rfl, rfl, rfl, rfl⟩

/-- C6 counterexample: with a stored token, an HTTP 200 reply whose body is
exactly the status-success marker '\x7b"status":0\x7d' makes set_param
return False — the code never looks for a status marker, only for "OK". -/
theorem c6_counterexample : (set_param oC6 "igniter" 5 stTok).1 = false := rfl

/-- C7 counterexample: a complete, successful fetch on a client holding a
token issues exactly one request in total — the primary controller-data
request — so no auxiliary request per menu-section name is ever issued. -/
theorem c7_counterexample : ((fetch_data oC7 stTok).2.trace).length = 1 := rfl

/-- C7 as amended: a fetch issues a single primary controller-data request
and no auxiliary per-section requests; every section is extracted from that
one payload, and a malformed section value (here a scalar boilerdata)
degrades to an empty mapping without affecting the other sections (dhw keeps
its record, hopper/regulation/ignition are empty) or the headline scalars
(state "Heating"). -/
theorem c7_amended_thm :
    (fetch_data oC7 stTok).2.trace = [ReqEvent.dataReq] ∧
    (fetch_data oC7 stTok).1 = PyVal.dict [
      (PyVal.str "boiler_temp", PyVal.num 0),
      (PyVal.str "state", PyVal.str "Heating"),
      (PyVal.str "attributes", PyVal.dict [
        (PyVal.str "front", PyVal.dict []),
        (PyVal.str "boiler", PyVal.dict []),
        (PyVal.str "dhw", PyVal.dict [(PyVal.str "dhwtemp", PyVal.str "50")]),
        (PyVal.str "hopper", PyVal.dict []),
        (PyVal.str "regulation", PyVal.dict []),
        (PyVal.str "ignition", PyVal.dict [])])] :=
  ⟨rfl, rfl⟩

/-- Helper: flatten_list always yields a dict. -/
theorem flatten_list_isDict (v : PyVal) : ∃ l, flatten_list v = PyVal.dict l := by
  cases v <;> exact ⟨_, rfl⟩

/-- Helper: _refresh_token makes exactly one login request. -/
theorem refresh_token_nLogin (o : Oracle) (s : ClientState) :
    (refresh_token o s).nLogin = s.nLogin + 1 := by
  simp only [refresh_token]
  split <;> rfl

/-- Helper: _refresh_token leaves every other request counter unchanged. -/
theorem refresh_token_nData (o : Oracle) (s : ClientState) :
    (refresh_token o s).nData = s.nData := by
  simp only [refresh_token]
  split <;> rfl

/-- Helper: when the stored token is falsy and the login response does not
yield a token, the token is still falsy after _refresh_token. -/
theorem refresh_token_falsy (o : Oracle) (s : ClientState)
    (hf : pyTruthy s.token = false) (H : loginGivesToken (o.login s.nLogin) = false) :
    pyTruthy (refresh_token o s).token = false := by
  cases h : o.login s.nLogin with
  | err => simpa [refresh_token, h] using hf
  | ok status body =>
    cases body with
    | error e => simpa [refresh_token, h] using hf
    | ok v =>
      cases v with
      | dict kvs => simpa [refresh_token, h, loginGivesToken] using H ▸ (by simp [loginGivesToken, h])
      | none => simpa [refresh_token, h] using hf
      | bool b => simpa [refresh_token, h] using hf
      | num q => simpa [refresh_token, h] using hf
      | str t => simpa [refresh_token, h] using hf
      | list xs => simpa [refresh_token, h] using hf

/-- C10: set_param never mutates a token that is present (truthy) at the
start of the call, whatever the write outcome — success, rejection or a
raised transport error. -/
theorem c10_token_frame (o : Oracle) (k : String) (v : ℚ) (s : ClientState)
    (h : pyTruthy s.token = true) : (set_param o k v s).2.token = s.token := by
  simp only [set_param, h]
  cases hu : o.upd s.nUpd <;> simp [hu, h]

/-- C10 witness: c10_token_frame at a client holding token "abc" against a
service that raises on every request. -/
theorem c10_witness :
    pyTruthy stTok.token = true ∧ (set_param oAllErr "igniter" 1 stTok).2.token = stTok.token :=
  ⟨rfl, c10_token_frame oAllErr "igniter" 1 stTok rfl⟩

/-- C6 as amended: with a stored token, set_param returns True exactly when
the write response is an HTTP 200 whose upper-cased body contains "OK"
(updSuccess); every other outcome — any other status, a body without the
marker, or a raised transport error — yields False, never a raised fault.
No status-success marker is recognised. -/
theorem c6_amended_thm (o : Oracle) (k : String) (v : ℚ) (s : ClientState)
    (h : pyTruthy s.token = true) :
    (set_param o k v s).1 = updSuccess (o.upd s.nUpd) := by
  simp only [set_param, h]
  cases hu : o.upd s.nUpd <;> simp [hu, h, updSuccess]

/-- C6 witness: c6_amended_thm at a client holding a token against a
service answering 200 "ok". -/
theorem c6_witness :
    pyTruthy stTok.token = true ∧
    (set_param oW6 "igniter" 1 stTok).1 = updSuccess (oW6.upd stTok.nUpd) :=
  ⟨rfl, c6_amended_thm oW6 "igniter" 1 stTok rfl⟩

/-- Helper: a fetch_data(retry=False) call entered without a usable token,
against a service whose login never yields one, performs exactly one login
attempt and returns the empty snapshot. -/
theorem noretry_login_fail (o : Oracle) (s : ClientState)
    (hf : pyTruthy s.token = false) (H : ∀ n, loginGivesToken (o.login n) = false) :
    fetch_data_noretry o s = (PyVal.dict [], refresh_token o s) := by
  have h1 : pyTruthy (refresh_token o s).token = false :=
    refresh_token_falsy o s hf (H s.nLogin)
  simp [fetch_data_noretry, hf, h1]

/-- Helper: a retry leg that first clears the token, logs in again and
re-enters fetch_data with retry disabled adds exactly two login attempts and
produces the empty snapshot, when login never yields a token. -/
theorem retry_leg_count (o : Oracle) (s2 : ClientState)
    (H : ∀ n, loginGivesToken (o.login n) = false) :
    (fetch_data_noretry o (refresh_token o { s2 with token := PyVal.none })).2.nLogin
        = s2.nLogin + 2 ∧
    (fetch_data_noretry o (refresh_token o { s2 with token := PyVal.none })).1
        = PyVal.dict [] := by
  have hf3 : pyTruthy ({ s2 with token := PyVal.none } : ClientState).token = false := rfl
  have h2 : pyTruthy (refresh_token o { s2 with token := PyVal.none }).token = false :=
    refresh_token_falsy o _ hf3 (H _)
  rw [noretry_login_fail o _ h2 H]
  refine ⟨?_, rfl⟩
  simp [refresh_token_nLogin]

/-- Helper: a retry leg that clears the token and re-enters fetch_data with
retry disabled (without an intermediate login) adds exactly one login
attempt and produces the empty snapshot, when login never yields a token. -/
theorem noretry_leg_count (o : Oracle) (s2 : ClientState)
    (H : ∀ n, loginGivesToken (o.login n) = false) :
    (fetch_data_noretry o { s2 with token := PyVal.none }).2.nLogin = s2.nLogin + 1 ∧
    (fetch_data_noretry o { s2 with token := PyVal.none }).1 = PyVal.dict [] := by
  have hf3 : pyTruthy ({ s2 with token := PyVal.none } : ClientState).token = false := rfl
  rw [noretry_login_fail o _ hf3 H]
  refine ⟨?_, rfl⟩
  simp [refresh_token_nLogin]

/-- C2 as amended: against a service whose login endpoint never yields a
token, a single fetch_data() call terminates after at most two login
attempts — never a third; and a call that begins without a usable token
performs exactly one login attempt and returns the empty snapshot. -/
theorem c2_amended_thm (o : Oracle) (s : ClientState)
    (H : ∀ n, loginGivesToken (o.login n) = false) :
    (fetch_data o s).2.nLogin ≤ s.nLogin + 2 ∧
    (pyTruthy s.token = false →
      (fetch_data o s).1 = PyVal.dict [] ∧
      (fetch_data o s).2.nLogin = s.nLogin + 1) := by
  cases hf : pyTruthy s.token with
  | false =>
      have h1 : pyTruthy (refresh_token o s).token = false :=
        refresh_token_falsy o s hf (H s.nLogin)
      refine ⟨?_, fun _ => ⟨?_, ?_⟩⟩ <;>
        simp [fetch_data, hf, h1, refresh_token_nLogin]
  | true =>
      refine ⟨?_, by intro hco; simp at hco⟩
      simp only [fetch_data, hf, eq_self_iff_true, if_true, Bool.true_eq_false, if_false]
      cases hd : o.data s.nData with
      | err =>
          have h := retry_leg_count o
            { s with nData := s.nData + 1, trace := s.trace ++ [ReqEvent.dataReq] } H
          simp only [hd]
          rw [h.1]
      | ok status body =>
          by_cases h401 : status = 401
          · have h := retry_leg_count o
              { s with nData := s.nData + 1, trace := s.trace ++ [ReqEvent.dataReq] } H
            simp only [hd, h401, eq_self_iff_true, if_true]
            rw [h.1]
          · simp only [hd, if_neg h401]
            cases body with
            | error e => exact Nat.le_add_right _ _
            | ok raw =>
                cases raw with
                | dict kvs =>
                    cases hk : hasKey kvs "frontdata" with
                    | true =>
                        simp only [hk, if_true]
                        cases hp : parse_response kvs with
                        | ok parsed => exact Nat.le_add_right _ _
                        | error e =>
                            have h := retry_leg_count o
                              { s with nData := s.nData + 1, trace := s.trace ++ [ReqEvent.dataReq] } H
                            rw [h.1]
                    | false =>
                        simp only [hk, Bool.false_eq_true, if_false]
                        have h := noretry_leg_count o
                          { s with nData := s.nData + 1, trace := s.trace ++ [ReqEvent.dataReq] } H
                        rw [h.1]
                        exact Nat.le_succ _
                | none =>
                    have h := noretry_leg_count o
                      { s with nData := s.nData + 1, trace := s.trace ++ [ReqEvent.dataReq] } H
                    rw [h.1]
                    exact Nat.le_succ _
                | bool b =>
                    have h := noretry_leg_count o
                      { s with nData := s.nData + 1, trace := s.trace ++ [ReqEvent.dataReq] } H
                    rw [h.1]
                    exact Nat.le_succ _
                | num q =>
                    have h := noretry_leg_count o
                      { s with nData := s.nData + 1, trace := s.trace ++ [ReqEvent.dataReq] } H
                    rw [h.1]
                    exact Nat.le_succ _
                | str t =>
                    have h := noretry_leg_count o
                      { s with nData := s.nData + 1, trace := s.trace ++ [ReqEvent.dataReq] } H
                    rw [h.1]
                    exact Nat.le_succ _
                | list xs =>
                    have h := noretry_leg_count o
                      { s with nData := s.nData + 1, trace := s.trace ++ [ReqEvent.dataReq] } H
                    rw [h.1]
                    exact Nat.le_succ _

/-- C2 counterexample: a freshly constructed client (no token) against a
service whose login always fails makes exactly ONE login attempt — not two —
during a single fetch_data() call, and returns the empty snapshot. -/
theorem c2_counterexample :
    (fetch_data oAllErr ClientState.init).2.nLogin = 1 ∧
    (fetch_data oAllErr ClientState.init).2.nLogin ≠ 2 ∧
    (fetch_data oAllErr ClientState.init).1 = PyVal.dict [] :=
  ⟨rfl, by decide, rfl⟩

/-- C2 witness: c2_amended_thm applied to the always-failing service and a
fresh client, with both hypotheses discharged. -/
theorem c2_witness :
    (fetch_data oAllErr ClientState.init).1 = PyVal.dict [] ∧
    (fetch_data oAllErr ClientState.init).2.nLogin = ClientState.init.nLogin + 1 :=
  (c2_amended_thm oAllErr ClientState.init (fun _ => rfl)).2 rfl

/-- Helper: a fetch_data(retry=False) call returns either the empty dict or
a value produced by _parse_response on the dict body of an actual
controller-data response of the service. -/
theorem noretry_result (o : Oracle) (s : ClientState) :
    (fetch_data_noretry o s).1 = PyVal.dict [] ∨
      ∃ n status kvs,
        o.data n = Resp.ok status (Except.ok (PyVal.dict kvs)) ∧
        parse_response kvs = Except.ok ((fetch_data_noretry o s).1) := by
  simp only [fetch_data_noretry]
  repeat' split
  all_goals first
    | exact Or.inl rfl
    | exact Or.inr ⟨_, _, _, by assumption, by assumption⟩

/-- Helper: a fetch_data() call returns either the empty dict or a value
produced by _parse_response on the dict body of an actual controller-data
response of the service. -/
theorem fetch_data_result (o : Oracle) (s : ClientState) :
    (fetch_data o s).1 = PyVal.dict [] ∨
      ∃ n status kvs,
        o.data n = Resp.ok status (Except.ok (PyVal.dict kvs)) ∧
        parse_response kvs = Except.ok ((fetch_data o s).1) := by
  simp only [fetch_data]
  repeat' split
  all_goals first
    | exact Or.inl rfl
    | exact noretry_result o _
    | exact Or.inr ⟨_, _, _, by assumption, by assumption⟩

/-- Helper: every successful _parse_response result has the snapshot shape
of SnapshotShape, including the "Unknown" state rule. -/
theorem parse_response_shape (kvs : List (PyVal × PyVal)) (v : PyVal)
    (h : parse_response kvs = Except.ok v) : SnapshotShape kvs v := by
  obtain ⟨bl, hbl⟩ := flatten_list_isDict (pyGetD kvs "boilerdata" PyVal.none)
  obtain ⟨dl, hdl⟩ := flatten_list_isDict (pyGetD kvs "dhwdata" PyVal.none)
  obtain ⟨hl, hhl⟩ := flatten_list_isDict (pyGetD kvs "hopperdata" PyVal.none)
  obtain ⟨rl, hrl⟩ := flatten_list_isDict (pyGetD kvs "regulationdata" PyVal.none)
  obtain ⟨il, hil⟩ := flatten_list_isDict (pyGetD kvs "ignitiondata" PyVal.none)
  cases hfr : pyGetD kvs "frontdata" (PyVal.dict []) with
  | dict fkvs =>
      cases hm : pyGetD kvs "miscdata" (PyVal.dict []) with
      | dict mkvs =>
          simp only [parse_response, hfr, hm, hbl, hdl, hhl, hrl, hil,
            Except.ok.injEq] at h
          cases hs : pyGetD mkvs "state" PyVal.none with
          | dict skvs =>
              rw [hs] at h
              refine ⟨_, _, fkvs, bl, dl, hl, rl, il, h.symm, fun hns => ?_⟩
              exact absurd (by simp [miscState, hm, hs]) (hns skvs)
          | none =>
              rw [hs] at h
              exact ⟨_, _, fkvs, bl, dl, hl, rl, il, h.symm, fun _ => rfl⟩
          | bool b =>
              rw [hs] at h
              exact ⟨_, _, fkvs, bl, dl, hl, rl, il, h.symm, fun _ => rfl⟩
          | num q =>
              rw [hs] at h
              exact ⟨_, _, fkvs, bl, dl, hl, rl, il, h.symm, fun _ => rfl⟩
          | str t =>
              rw [hs] at h
              exact ⟨_, _, fkvs, bl, dl, hl, rl, il, h.symm, fun _ => rfl⟩
          | list xs =>
              rw [hs] at h
              exact ⟨_, _, fkvs, bl, dl, hl, rl, il, h.symm, fun _ => rfl⟩
      | none => simp [parse_response, hfr, hm] at h
      | bool b => simp [parse_response, hfr, hm] at h
      | num q => simp [parse_response, hfr, hm] at h
      | str t => simp [parse_response, hfr, hm] at h
      | list xs => simp [parse_response, hfr, hm] at h
  | none => simp [parse_response, hfr] at h
  | bool b => simp [parse_response, hfr] at h
  | num q => simp [parse_response, hfr] at h
  | str t => simp [parse_response, hfr] at h
  | list xs => simp [parse_response, hfr] at h

/-- C9: whenever fetch_data() returns a non-empty snapshot, the snapshot was
parsed from the dict body kvs of an actual controller-data response of the
service, and relative to that very payload it has the claimed shape: exactly
the keys boiler_temp, state and attributes; attributes maps exactly the six
fixed section names front, boiler, dhw, hopper, regulation and ignition,
each to a dict (at worst empty); and the state is the string "Unknown"
whenever that payload's miscdata.state is not object-shaped.  The link
o.data n = ... ties kvs to the response the service really gave, so the
Unknown clause constrains the returned state by the actual response body. -/
theorem c9_snapshot_shape (o : Oracle) (s : ClientState) :
    (fetch_data o s).1 = PyVal.dict [] ∨
      ∃ n status kvs,
        o.data n = Resp.ok status (Except.ok (PyVal.dict kvs)) ∧
        SnapshotShape kvs ((fetch_data o s).1) := by
  rcases fetch_data_result o s with h | ⟨n, status, kvs, hdata, h⟩
  · exact Or.inl h
  · exact Or.inr ⟨n, status, kvs, hdata, parse_response_shape kvs _ h⟩

/-- C8 counterexample: set_param called with the float nan on a client that
already holds a token lets the ValueError from int(round(float(value)))
escape to the caller — the conversion at client.py line 167 sits outside the
try block beginning at line 173, so "never an uncaught exception" fails and
no boolean is returned for that input. -/
theorem c8_counterexample :
    set_param_float oAllErr "igniter" PyFloat.nan stTok = Except.error () := rfl

/-- C8 as amended: for every HTTP outcome — timeouts, non-JSON bodies,
wrong JSON shapes — no parsing exception escapes: fetch_data returns a dict
(at worst empty) and get_consumption returns a list (at worst empty); and
set_param returns a boolean for every FINITE numeric value (the float call
path agrees with set_param there), while a non-finite value (nan/±inf)
raises an uncaught error from int(round(float(value))) before any request
is issued (see the counterexample). -/
theorem c8_amended_thm :
    (∀ o s, ∃ l, (fetch_data o s).1 = PyVal.dict l) ∧
    (∀ o q s, ∃ xs, (get_consumption o q s).1 = PyVal.list xs) ∧
    (∀ o k (q : ℚ) s, set_param_float o k (PyFloat.finite q) s = Except.ok (set_param o k q s)) := by
  refine ⟨fun o s => ?_, fun o q s => ?_, fun o k q s => ?_⟩
  · rcases fetch_data_result o s with h | ⟨n, status, kvs, hdata, h⟩
    · exact ⟨[], h⟩
    · rcases parse_response_shape kvs _ h with ⟨bt, st, fl, bl, dl, hl, rl, il, hv, _⟩
      exact ⟨_, hv⟩
  · simp only [get_consumption]
    repeat' split
    all_goals exact ⟨_, rfl⟩
  · simp only [set_param_float, set_param, pyRoundFloat]
    by_cases hcond : pyTruthy (if pyTruthy s.token then s else refresh_token o s).token = false
    · simp [hcond]
    · simp only [hcond, if_false]
      cases hu : o.upd (if pyTruthy s.token then s else refresh_token o s).nUpd <;> simp [hu]
